import Mathlib

/-!
Shallow embedding of the goblin-starter scheduler (src/goblin.go, src/main.go).

Go strings are modelled as `List Char` (named `Str` below). The Go code only
ever slices and measures date strings, which are pure ASCII, so byte-based
`len`/slicing in Go and char-based `List.length`/`List.take` here agree on
every branch outcome (a byte-slice of a string can only equal the all-ASCII
`today` when its first ten runes are ASCII).

Dynamic JSON values (`map[string]any` in Go) are modelled by `JValue`;
JSON numbers are modelled as `Int` (the Go code truncates the float64 with
`int(v)`, and only integral values appear in any behaviour claimed here).

The injected random source `rand.Intn` is a stateful generator called at most
twice per invocation, in a fixed order; it is modelled as a function
`randIntn : Nat → Int → Int` whose first argument is the call index (0 for the
hour-offset draw, 1 for the minute draw), which captures exactly the internal
state advance between the two calls.
-/

/-- Go strings, as lists of characters. -/
abbrev Str := List Char

instance {ε α : Type} [DecidableEq ε] [DecidableEq α] : DecidableEq (Except ε α) := fun x y =>
  match x, y with
  | .error a, .error b =>
    if h : a = b then .isTrue (by rw [h]) else .isFalse (by intro hc; cases hc; exact h rfl)
  | .ok a, .ok b =>
    if h : a = b then .isTrue (by rw [h]) else .isFalse (by intro hc; cases hc; exact h rfl)
  | .error _, .ok _ => .isFalse (by intro hc; cases hc)
  | .ok _, .error _ => .isFalse (by intro hc; cases hc)

/-- Dynamic JSON values (`any` in Go maps). -/
inductive JValue where
  | jstr (s : Str)
  | jnum (n : Int)
  | jbool (b : Bool)
  | jnull
deriving DecidableEq

/-- First-match lookup in a key-value list, modelling Go map indexing
(Go maps have unique keys). -/
def lookupKV (key : Str) : List (Str × JValue) → Option JValue
  | [] => none
  | (k, v) :: rest => if k = key then some v else lookupKV key rest

/-- Digit character for `d` in 0–9. -/
def digitChar (d : Nat) : Char := Char.ofNat (48 + d)

/-- Fuelled digit extraction (structural, so the kernel can evaluate it):
any `fuel ≥ 1` with `n < 10 ^ fuel` yields all decimal digits of `n`, most
significant first. -/
def natDigitsAux : Nat → Nat → Str
  | 0, _ => []
  | fuel + 1, n =>
    if n < 10 then [digitChar n]
    else natDigitsAux fuel (n / 10) ++ [digitChar (n % 10)]

/-- The decimal digits of `n`, most significant first (Go `%d` on a Nat);
`n + 1` units of fuel always suffice. -/
def natDigits (n : Nat) : Str := natDigitsAux (n + 1) n

/-- Go `fmt.Sprintf("%d", n)` for an int. -/
def intStr (n : Int) : Str :=
  if n < 0 then '-' :: natDigits (-n).toNat else natDigits n.toNat

/-- Go `fmt.Sprintf("%02d", n)`: zero-pad to width 2 (the sign counts
towards the width, so negatives are never padded). -/
def format2 (n : Int) : Str :=
  if 0 ≤ n ∧ n < 10 then '0' :: natDigits n.toNat else intStr n

/-- Go `Format("2006")`: the year zero-padded to four digits. -/
def format4 (y : Nat) : Str :=
  if y < 10 then '0' :: '0' :: '0' :: natDigits y
  else if y < 100 then '0' :: '0' :: natDigits y
  else if y < 1000 then '0' :: natDigits y
  else natDigits y

/-- A UTC instant, by calendar fields (Go `time.Time`, already in UTC:
`now.UTC()` is the identity on it). -/
structure DateTime where
  year : Nat
  month : Nat
  day : Nat
  hour : Nat
  minute : Nat
  second : Nat
deriving DecidableEq

/-- Injection of calendar fields into a single ordinal; strictly monotone in
chronological order on valid datetimes (month ≤ 12 < 13, day ≤ 31 < 32). -/
def DateTime.key (t : DateTime) : Nat :=
  ((((t.year * 13 + t.month) * 32 + t.day) * 24 + t.hour) * 60 + t.minute) * 60 + t.second

/-- Go `time.Time.Before`: strict chronological order. -/
def DateTime.before (a b : DateTime) : Bool :=
  a.key < b.key

/-- Go `now.UTC().Format("2006-01-02")`. -/
def formatDate (t : DateTime) : Str :=
  format4 t.year ++ "-".data ++ format2 (t.month : Int) ++ "-".data ++ format2 (t.day : Int)

/-- The calendar fields a Go `time.Time` can present (Go normalises out-of-range
fields; years are kept four-digit as the `2006-01-02` format assumes). -/
def ValidDateTime (t : DateTime) : Prop :=
  1 ≤ t.year ∧ t.year ≤ 9999 ∧ 1 ≤ t.month ∧ t.month ≤ 12 ∧
  1 ≤ t.day ∧ t.day ≤ 31 ∧ t.hour ≤ 23 ∧ t.minute ≤ 59 ∧ t.second ≤ 59

instance (t : DateTime) : Decidable (ValidDateTime t) := by
  unfold ValidDateTime; infer_instance

/-! ## time.Parse for layout "2006-01-02T15:04" -/

/-- Value of a decimal digit character, if it is one. -/
def digitVal (c : Char) : Option Nat :=
  if '0' ≤ c ∧ c ≤ '9' then some (c.toNat - 48) else none

/-- Go `getnum` with `fixed = true` over a two-digit layout element. -/
def getnum2 : Str → Option (Nat × Str)
  | c1 :: c2 :: rest => do
    let d1 ← digitVal c1
    let d2 ← digitVal c2
    some (d1 * 10 + d2, rest)
  | _ => none

/-- Go `getnum` with `fixed = false` (layout "15"): two digits if available,
else one. -/
def getnum12 : Str → Option (Nat × Str)
  | c1 :: c2 :: rest =>
    match digitVal c1 with
    | none => none
    | some d1 =>
      match digitVal c2 with
      | some d2 => some (d1 * 10 + d2, rest)
      | none => some (d1, c2 :: rest)
  | [c1] => (digitVal c1).map fun d => (d, ([] : Str))
  | [] => none

/-- Go `stdLongYear`: exactly four digits. -/
def getnum4 : Str → Option (Nat × Str)
  | c1 :: c2 :: c3 :: c4 :: rest => do
    let d1 ← digitVal c1
    let d2 ← digitVal c2
    let d3 ← digitVal c3
    let d4 ← digitVal c4
    some (d1 * 1000 + d2 * 100 + d3 * 10 + d4, rest)
  | _ => none

/-- Match one literal layout character. -/
def lit (c : Char) : Str → Option Str
  | x :: rest => if x = c then some rest else none
  | [] => none

/-- Go `isLeap`. -/
def isLeap (y : Nat) : Bool :=
  y % 4 = 0 && (y % 100 ≠ 0 || y % 400 = 0)

/-- Go `daysIn(m, year)`: days in month `m` (1–12) of year `y`. -/
def daysIn (m y : Nat) : Nat :=
  if m = 2 ∧ isLeap y then 29
  else [31, 28, 31, 30, 31, 30, 31, 31, 30, 31, 30, 31].getD (m - 1) 0

/-- Go `time.Parse("2006-01-02T15:04", s)` in UTC: field parsing followed by
the range checks Go applies (month 1–12, day within the month, hour < 24,
minute < 60, no trailing input). Seconds default to zero. -/
def parseDateTime (s : Str) : Option DateTime := do
  let (year, s) ← getnum4 s
  let s ← lit '-' s
  let (month, s) ← getnum2 s
  let s ← lit '-' s
  let (day, s) ← getnum2 s
  let s ← lit 'T' s
  let (hour, s) ← getnum12 s
  let s ← lit ':' s
  let (minute, s) ← getnum2 s
  if s = [] ∧ 1 ≤ month ∧ month ≤ 12 ∧ 1 ≤ day ∧ day ≤ daysIn month year ∧
      hour < 24 ∧ minute < 60 then
    some { year := year, month := month, day := day,
           hour := hour, minute := minute, second := 0 }
  else none

/-! ## Arguments (src/goblin.go `parseArgs`) -/

/-- `goblinArgs`: blueprint-declared configuration. -/
structure GoblinArgs where
  name : Str
  earliestHour : Int
  latestHour : Int
deriving DecidableEq

/-- The defaulting phase of `parseArgs`: start from the defaults and overlay
each argument that is present with the expected dynamic type (`name` only
when it is a non-empty string, mirroring `ok && v != ""`). -/
def applyDefaults (raw : List (Str × JValue)) : GoblinArgs :=
  let a0 : GoblinArgs := { name := "friend".data, earliestHour := 8, latestHour := 20 }
  let a1 := match lookupKV "name".data raw with
    | some (.jstr v) => if v ≠ [] then { a0 with name := v } else a0
    | _ => a0
  let a2 := match lookupKV "earliest_hour".data raw with
    | some (.jnum v) => { a1 with earliestHour := v }
    | _ => a1
  match lookupKV "latest_hour".data raw with
    | some (.jnum v) => { a2 with latestHour := v }
    | _ => a2

/-- `parseArgs`: defaults plus the single window validation. -/
def parseArgs (raw : List (Str × JValue)) : Except Str GoblinArgs :=
  let a := applyDefaults raw
  if a.latestHour ≤ a.earliestHour then
    .error ("latest_hour (".data ++ intStr a.latestHour ++
            ") must be greater than earliest_hour (".data ++ intStr a.earliestHour ++ ")".data)
  else
    .ok a

/-! ## State (src/goblin.go `parseState`, `saveState`) -/

/-- `goblinState`: what was sent and when to send next. Empty string means
the field is absent (`omitempty`). -/
structure GoblinState where
  lastSentDate : Str
  scheduledFor : Str
deriving DecidableEq

/-- One string field of the JSON round-trip in `parseState`: absent or null
leaves the zero value, a string is taken, any other dynamic type is an
unmarshal error. -/
def stateStrField (raw : List (Str × JValue)) (key : Str) : Except Str Str :=
  match lookupKV key raw with
  | none => .ok []
  | some (.jstr v) => .ok v
  | some .jnull => .ok []
  | some _ => .error ("cannot interpret state field ".data ++ key)

/-- `parseState`: marshal the raw map and unmarshal it into `goblinState`. -/
def parseState (raw : List (Str × JValue)) : Except Str GoblinState := do
  let l ← stateStrField raw "last_sent_date".data
  let s ← stateStrField raw "scheduled_for".data
  .ok { lastSentDate := l, scheduledFor := s }

/-- `saveState`: marshal the struct back to a map; `omitempty` drops empty
fields. -/
def saveState (s : GoblinState) : List (Str × JValue) :=
  (if s.lastSentDate = [] then [] else [("last_sent_date".data, JValue.jstr s.lastSentDate)]) ++
  (if s.scheduledFor = [] then [] else [("scheduled_for".data, JValue.jstr s.scheduledFor)])

/-! ## Core logic (src/goblin.go `run`, `timeOfDay`) -/

/-- `sdk.Output`: the decision plus the state to persist. -/
structure Output where
  data : List (Str × JValue)
  state : List (Str × JValue)
  skip : Bool
deriving DecidableEq

/-- `timeOfDay`: human-readable part of the day for a UTC hour. -/
def timeOfDay (hour : Nat) : Str :=
  if hour < 12 then "morning".data
  else if hour < 17 then "afternoon".data
  else "evening".data

/-- `run`: the goblin's business logic. `arguments` and `state` are the two
maps of `sdk.Input`; `randIntn`'s first argument is the call index (see the
header comment). -/
def run (arguments state : List (Str × JValue)) (now : DateTime)
    (randIntn : Nat → Int → Int) : Except Str Output :=
  match parseArgs arguments with
  | .error e => .error ("parse arguments: ".data ++ e)
  | .ok args =>
    match parseState state with
    | .error e => .error ("parse state: ".data ++ e)
    | .ok st =>
      let today := formatDate now
      if st.lastSentDate = today then
        .ok { data := [], state := saveState st, skip := true }
      else if st.scheduledFor = [] ∨ st.scheduledFor.length < 10 ∨
          st.scheduledFor.take 10 ≠ today then
        let hour := args.earliestHour + randIntn 0 (args.latestHour - args.earliestHour)
        let minute := randIntn 1 60
        let st' := { st with
          scheduledFor := today ++ "T".data ++ format2 hour ++ ":".data ++ format2 minute }
        .ok { data := [], state := saveState st', skip := true }
      else
        match parseDateTime st.scheduledFor with
        | none => .error ("parse scheduled_for ".data ++ st.scheduledFor)
        | some scheduledAt =>
          if now.before scheduledAt then
            .ok { data := [], state := saveState st, skip := true }
          else
            .ok { data := [("name".data, JValue.jstr args.name),
                           ("time_of_day".data, JValue.jstr (timeOfDay now.hour))],
                  state := saveState { lastSentDate := today, scheduledFor := [] },
                  skip := false }

/-! ## Helper lemmas -/

lemma natDigitsAux_of_lt (fuel n : Nat) (hf : 1 ≤ fuel) (h : n < 10) :
    natDigitsAux fuel n = [digitChar n] := by
  obtain ⟨f, rfl⟩ : ∃ f, fuel = f + 1 := ⟨fuel - 1, by omega⟩
  unfold natDigitsAux
  rw [if_pos h]

lemma natDigitsAux_ne_nil (fuel n : Nat) (hf : 1 ≤ fuel) : natDigitsAux fuel n ≠ [] := by
  obtain ⟨f, rfl⟩ : ∃ f, fuel = f + 1 := ⟨fuel - 1, by omega⟩
  unfold natDigitsAux
  split <;> simp

lemma natDigits_ne_nil (n : Nat) : natDigits n ≠ [] :=
  natDigitsAux_ne_nil (n + 1) n (by omega)

lemma natDigitsAux_length1 (fuel n : Nat) (hf : 1 ≤ fuel) (h : n < 10) :
    (natDigitsAux fuel n).length = 1 := by
  rw [natDigitsAux_of_lt fuel n hf h]
  rfl

lemma natDigitsAux_length2 (fuel n : Nat) (hf : 2 ≤ fuel) (h1 : 10 ≤ n) (h2 : n < 100) :
    (natDigitsAux fuel n).length = 2 := by
  obtain ⟨f, rfl⟩ : ∃ f, fuel = f + 1 := ⟨fuel - 1, by omega⟩
  unfold natDigitsAux
  rw [if_neg (by omega), List.length_append,
    natDigitsAux_length1 f (n / 10) (by omega) (by omega)]
  rfl

lemma natDigitsAux_length3 (fuel n : Nat) (hf : 3 ≤ fuel) (h1 : 100 ≤ n) (h2 : n < 1000) :
    (natDigitsAux fuel n).length = 3 := by
  obtain ⟨f, rfl⟩ : ∃ f, fuel = f + 1 := ⟨fuel - 1, by omega⟩
  unfold natDigitsAux
  rw [if_neg (by omega), List.length_append,
    natDigitsAux_length2 f (n / 10) (by omega) (by omega) (by omega)]
  rfl

lemma natDigitsAux_length4 (fuel n : Nat) (hf : 4 ≤ fuel) (h1 : 1000 ≤ n) (h2 : n < 10000) :
    (natDigitsAux fuel n).length = 4 := by
  obtain ⟨f, rfl⟩ : ∃ f, fuel = f + 1 := ⟨fuel - 1, by omega⟩
  unfold natDigitsAux
  rw [if_neg (by omega), List.length_append,
    natDigitsAux_length3 f (n / 10) (by omega) (by omega) (by omega)]
  rfl

lemma natDigits_length1 (n : Nat) (h : n < 10) : (natDigits n).length = 1 :=
  natDigitsAux_length1 (n + 1) n (by omega) h

lemma natDigits_length2 (n : Nat) (h1 : 10 ≤ n) (h2 : n < 100) :
    (natDigits n).length = 2 :=
  natDigitsAux_length2 (n + 1) n (by omega) h1 h2

lemma natDigits_length3 (n : Nat) (h1 : 100 ≤ n) (h2 : n < 1000) :
    (natDigits n).length = 3 :=
  natDigitsAux_length3 (n + 1) n (by omega) h1 h2

lemma natDigits_length4 (n : Nat) (h1 : 1000 ≤ n) (h2 : n < 10000) :
    (natDigits n).length = 4 :=
  natDigitsAux_length4 (n + 1) n (by omega) h1 h2

lemma format2_length (n : Int) (h0 : 0 ≤ n) (h99 : n ≤ 99) : (format2 n).length = 2 := by
  unfold format2 intStr
  by_cases h : n < 10
  · rw [if_pos ⟨h0, h⟩]
    simp [natDigits_length1 n.toNat (by omega)]
  · rw [if_neg (by tauto), if_neg (by omega)]
    exact natDigits_length2 n.toNat (by omega) (by omega)

lemma format2_ne_nil (n : Int) : format2 n ≠ [] := by
  unfold format2 intStr
  split
  · simp
  · split
    · simp
    · exact natDigits_ne_nil _

lemma format4_length (y : Nat) (h : y ≤ 9999) : (format4 y).length = 4 := by
  unfold format4
  by_cases h1 : y < 10
  · rw [if_pos h1]; simp [natDigits_length1 y h1]
  · rw [if_neg h1]
    by_cases h2 : y < 100
    · rw [if_pos h2]; simp [natDigits_length2 y (by omega) h2]
    · rw [if_neg h2]
      by_cases h3 : y < 1000
      · rw [if_pos h3]; simp [natDigits_length3 y (by omega) h3]
      · rw [if_neg h3]
        exact natDigits_length4 y (by omega) (by omega)

lemma formatDate_length (t : DateTime) (h : ValidDateTime t) :
    (formatDate t).length = 10 := by
  obtain ⟨h1, h2, h3, h4, h5, h6, -⟩ := h
  unfold formatDate
  have hdash : ("-".data : Str).length = 1 := rfl
  rw [List.length_append, List.length_append, List.length_append, List.length_append,
    hdash, format4_length t.year h2, format2_length _ (by omega) (by omega),
    format2_length _ (by omega) (by omega)]

lemma formatDate_ne_nil (t : DateTime) : formatDate t ≠ [] := by
  unfold formatDate
  intro h
  rcases List.append_eq_nil.mp h with ⟨-, h2⟩
  exact format2_ne_nil _ h2

lemma take_len_append (l r : Str) (h : l.length = 10) : (l ++ r).take 10 = l := by
  rw [← h, List.take_left]

lemma lookupKV_saveState_scheduledFor (s : GoblinState) (h : s.scheduledFor ≠ []) :
    lookupKV "scheduled_for".data (saveState s) = some (.jstr s.scheduledFor) := by
  unfold saveState
  by_cases hl : s.lastSentDate = []
  · rw [if_pos hl, if_neg h]
    simp [lookupKV]
  · rw [if_neg hl, if_neg h]
    simp only [List.cons_append, List.nil_append]
    unfold lookupKV
    rw [if_neg (by decide)]
    simp [lookupKV]

lemma lookupKV_saveState_scheduledFor_none (s : GoblinState) (h : s.scheduledFor = []) :
    lookupKV "scheduled_for".data (saveState s) = none := by
  unfold saveState
  rw [if_pos h]
  by_cases hl : s.lastSentDate = []
  · rw [if_pos hl]; rfl
  · rw [if_neg hl]
    simp only [List.append_nil]
    unfold lookupKV
    rw [if_neg (by decide)]
    rfl

lemma parseArgs_ok_eq (raw : List (Str × JValue)) (a : GoblinArgs)
    (h : parseArgs raw = .ok a) : a = applyDefaults raw := by
  unfold parseArgs at h
  by_cases hw : (applyDefaults raw).latestHour ≤ (applyDefaults raw).earliestHour
  · rw [if_pos hw] at h; cases h
  · rw [if_neg hw] at h; cases h; rfl

lemma run_already_eq (arguments state : List (Str × JValue)) (now : DateTime)
    (g : Nat → Int → Int) (a : GoblinArgs) (st : GoblinState)
    (hA : parseArgs arguments = .ok a)
    (hS : parseState state = .ok st)
    (hSent : st.lastSentDate = formatDate now) :
    run arguments state now g = .ok { data := [], state := saveState st, skip := true } := by
  unfold run
  rw [hA, hS]
  simp [hSent]

lemma run_pick_eq (arguments state : List (Str × JValue)) (now : DateTime)
    (g : Nat → Int → Int) (a : GoblinArgs) (st : GoblinState)
    (hA : parseArgs arguments = .ok a)
    (hS : parseState state = .ok st)
    (hSent : st.lastSentDate ≠ formatDate now)
    (hNo : st.scheduledFor = [] ∨ st.scheduledFor.length < 10 ∨
      st.scheduledFor.take 10 ≠ formatDate now) :
    run arguments state now g =
      .ok { data := [],
            state := saveState { st with scheduledFor := formatDate now ++ "T".data ++ format2 (a.earliestHour + g 0 (a.latestHour - a.earliestHour)) ++ ":".data ++ format2 (g 1 60) },
            skip := true } := by
  unfold run
  rw [hA, hS]
  simp [hSent, hNo]

lemma run_wait_eq (arguments state : List (Str × JValue)) (now : DateTime)
    (g : Nat → Int → Int) (a : GoblinArgs) (st : GoblinState) (dt : DateTime)
    (hA : parseArgs arguments = .ok a)
    (hS : parseState state = .ok st)
    (hSent : st.lastSentDate ≠ formatDate now)
    (hNo : ¬(st.scheduledFor = [] ∨ st.scheduledFor.length < 10 ∨
      st.scheduledFor.take 10 ≠ formatDate now))
    (hP : parseDateTime st.scheduledFor = some dt)
    (hB : now.before dt = true) :
    run arguments state now g = .ok { data := [], state := saveState st, skip := true } := by
  unfold run
  rw [hA, hS]
  simp [hSent, hNo, hP, hB]

lemma run_sched_err_eq (arguments state : List (Str × JValue)) (now : DateTime)
    (g : Nat → Int → Int) (a : GoblinArgs) (st : GoblinState)
    (hA : parseArgs arguments = .ok a)
    (hS : parseState state = .ok st)
    (hSent : st.lastSentDate ≠ formatDate now)
    (hNo : ¬(st.scheduledFor = [] ∨ st.scheduledFor.length < 10 ∨
      st.scheduledFor.take 10 ≠ formatDate now))
    (hP : parseDateTime st.scheduledFor = none) :
    run arguments state now g =
      .error ("parse scheduled_for ".data ++ st.scheduledFor) := by
  unfold run
  rw [hA, hS]
  simp [hSent, hNo, hP]

lemma run_fire_eq (arguments state : List (Str × JValue)) (now : DateTime)
    (g : Nat → Int → Int) (a : GoblinArgs) (st : GoblinState) (dt : DateTime)
    (hA : parseArgs arguments = .ok a)
    (hS : parseState state = .ok st)
    (hSent : st.lastSentDate ≠ formatDate now)
    (hNo : ¬(st.scheduledFor = [] ∨ st.scheduledFor.length < 10 ∨
      st.scheduledFor.take 10 ≠ formatDate now))
    (hP : parseDateTime st.scheduledFor = some dt)
    (hB : now.before dt = false) :
    run arguments state now g =
      .ok { data := [("name".data, JValue.jstr a.name),
                     ("time_of_day".data, JValue.jstr (timeOfDay now.hour))],
            state := [("last_sent_date".data, JValue.jstr (formatDate now))],
            skip := false } := by
  unfold run
  rw [hA, hS]
  simp only [hP]
  simp [hSent, hNo, hB]
  unfold saveState
  rw [if_neg (formatDate_ne_nil now), if_pos rfl]
  simp

lemma run_args_err_eq (arguments state : List (Str × JValue)) (now : DateTime)
    (g : Nat → Int → Int)
    (h : (applyDefaults arguments).latestHour ≤ (applyDefaults arguments).earliestHour) :
    run arguments state now g =
      .error ("parse arguments: ".data ++
        ("latest_hour (".data ++ intStr (applyDefaults arguments).latestHour ++
         ") must be greater than earliest_hour (".data ++
         intStr (applyDefaults arguments).earliestHour ++ ")".data)) := by
  unfold run parseArgs
  simp only [if_pos h]

lemma run_state_err_eq (arguments state : List (Str × JValue)) (now : DateTime)
    (g : Nat → Int → Int) (a : GoblinArgs) (e : Str)
    (hA : parseArgs arguments = .ok a)
    (hS : parseState state = .error e) :
    run arguments state now g = .error ("parse state: ".data ++ e) := by
  unfold run
  rw [hA, hS]

lemma no_repick_today (sf today : Str) (hLen : 10 ≤ sf.length)
    (hPre : sf.take 10 = today) :
    ¬(sf = [] ∨ sf.length < 10 ∨ sf.take 10 ≠ today) := by
  push_neg
  refine ⟨?_, by omega, hPre⟩
  intro h
  rw [h] at hLen
  simp at hLen

lemma parseArgs_error_window (raw : List (Str × JValue)) (e : Str)
    (h : parseArgs raw = .error e) :
    (applyDefaults raw).latestHour ≤ (applyDefaults raw).earliestHour := by
  unfold parseArgs at h
  by_cases hw : (applyDefaults raw).latestHour ≤ (applyDefaults raw).earliestHour
  · exact hw
  · rw [if_neg hw] at h; cases h

lemma parseState_lastOnly (d : Str) :
    parseState [("last_sent_date".data, JValue.jstr d)] = .ok ⟨d, []⟩ := by
  rfl

lemma saveState_lastOnly (d : Str) (h : d ≠ []) :
    saveState ⟨d, []⟩ = [("last_sent_date".data, JValue.jstr d)] := by
  unfold saveState
  rw [if_neg h, if_pos rfl]
  simp

lemma applyDefaults_name_empty (raw : List (Str × JValue))
    (h : lookupKV "name".data raw = some (.jstr [])) :
    (applyDefaults raw).name = "friend".data := by
  unfold applyDefaults
  rw [h]
  simp only [ne_eq, not_true_eq_false, if_false]
  split <;> split <;> rfl

/-! ## Claims -/

/-- C1: with a valid configuration and parsed state, when the salutation was
not yet sent today, `scheduledFor` has today's date prefix and parses as a UTC
datetime, and `now` has reached it, `run` fires: the payload name is the
configured name, `time_of_day` classifies `now`'s UTC hour by the ranges
[0,12) → morning, [12,17) → afternoon, [17,24) → evening, and the returned
state is exactly the record with `last_sent_date = today` and no
`scheduled_for`. -/
theorem run_fire_correct (arguments state : List (Str × JValue)) (now : DateTime)
    (g : Nat → Int → Int) (a : GoblinArgs) (st : GoblinState) (dt : DateTime)
    (hA : parseArgs arguments = .ok a)
    (hS : parseState state = .ok st)
    (hSent : st.lastSentDate ≠ formatDate now)
    (hLen : 10 ≤ st.scheduledFor.length)
    (hPre : st.scheduledFor.take 10 = formatDate now)
    (hParse : parseDateTime st.scheduledFor = some dt)
    (hReached : now.before dt = false) :
    run arguments state now g =
      .ok { data := [("name".data, JValue.jstr a.name),
                     ("time_of_day".data, JValue.jstr (
                        if now.hour < 12 then "morning".data
                        else if now.hour < 17 then "afternoon".data
                        else "evening".data))],
            state := [("last_sent_date".data, JValue.jstr (formatDate now))],
            skip := false } := by
  have hNo : ¬(st.scheduledFor = [] ∨ st.scheduledFor.length < 10 ∨
      st.scheduledFor.take 10 ≠ formatDate now) := by
    push_neg
    refine ⟨?_, by omega, hPre⟩
    intro h
    rw [h] at hLen
    simp at hLen
  rw [run_fire_eq arguments state now g a st dt hA hS hSent hNo hParse hReached]
  rfl

theorem run_fire_correct_witness :
    run [("name".data, JValue.jstr "Alice".data)]
        [("scheduled_for".data, JValue.jstr "2026-02-22T14:00".data)]
        ⟨2026, 2, 22, 14, 30, 0⟩ (fun _ _ => 0) =
      .ok { data := [("name".data, JValue.jstr ("Alice".data : Str)),
                     ("time_of_day".data, JValue.jstr (
                        if (14 : Nat) < 12 then "morning".data
                        else if (14 : Nat) < 17 then "afternoon".data
                        else "evening".data))],
            state := [("last_sent_date".data, JValue.jstr (formatDate ⟨2026, 2, 22, 14, 30, 0⟩))],
            skip := false } :=
  run_fire_correct _ _ _ _ ⟨"Alice".data, 8, 20⟩ ⟨[], "2026-02-22T14:00".data⟩
    ⟨2026, 2, 22, 14, 0, 0⟩ (by decide) (by decide) (by decide) (by decide)
    (by decide) (by decide) (by decide)

/-- C2: with a valid configuration and parsed state, when the salutation was
not yet sent today and no valid schedule exists for today (absent, shorter
than 10 characters, or a different date prefix), `run` skips and persists
`scheduledFor = today ++ "T" ++ %02d hour ++ ":" ++ %02d minute`, with
`hour = earliestHour + randIntn(latestHour - earliestHour)` (first generator
call, returning `k`) and `minute = randIntn(60)` (second call, returning
`m`). -/
theorem run_pick_schedule (arguments state : List (Str × JValue)) (now : DateTime)
    (g : Nat → Int → Int) (a : GoblinArgs) (st : GoblinState) (k m : Int)
    (hA : parseArgs arguments = .ok a)
    (hS : parseState state = .ok st)
    (hSent : st.lastSentDate ≠ formatDate now)
    (hNo : st.scheduledFor = [] ∨ st.scheduledFor.length < 10 ∨
      st.scheduledFor.take 10 ≠ formatDate now)
    (hk : g 0 (a.latestHour - a.earliestHour) = k)
    (hm : g 1 60 = m) :
    ∃ out, run arguments state now g = .ok out ∧ out.skip = true ∧
      lookupKV "scheduled_for".data out.state =
        some (.jstr (formatDate now ++ "T".data ++ format2 (a.earliestHour + k) ++
          ":".data ++ format2 m)) := by
  refine ⟨_, run_pick_eq arguments state now g a st hA hS hSent hNo, rfl, ?_⟩
  rw [lookupKV_saveState_scheduledFor _ (by simp)]
  rw [hk, hm]

theorem run_pick_schedule_witness :
    ∃ out, run [("earliest_hour".data, JValue.jnum 9), ("latest_hour".data, JValue.jnum 17)]
        [] ⟨2026, 2, 22, 8, 0, 0⟩ (fun i _ => if i = 0 then 7 else 0) = .ok out ∧
      out.skip = true ∧
      lookupKV "scheduled_for".data out.state =
        some (.jstr (formatDate ⟨2026, 2, 22, 8, 0, 0⟩ ++ "T".data ++ format2 (9 + 7) ++
          ":".data ++ format2 0)) :=
  run_pick_schedule _ _ _ _ ⟨"friend".data, 9, 17⟩ ⟨[], []⟩ 7 0
    (by decide) (by decide) (by decide) (by decide) (by decide) (by decide)

/-- C3: whenever the configuration after defaulting has
`latest_hour ≤ earliest_hour`, `run` fails with the configuration error (its
message interpolating both bound values), for every state, time and random
generator. -/
theorem run_invalid_window_error (arguments state : List (Str × JValue)) (now : DateTime)
    (g : Nat → Int → Int)
    (h : (applyDefaults arguments).latestHour ≤ (applyDefaults arguments).earliestHour) :
    run arguments state now g =
      .error ("parse arguments: ".data ++
        ("latest_hour (".data ++ intStr (applyDefaults arguments).latestHour ++
         ") must be greater than earliest_hour (".data ++
         intStr (applyDefaults arguments).earliestHour ++ ")".data)) :=
  run_args_err_eq arguments state now g h

theorem run_invalid_window_error_witness :
    run [("earliest_hour".data, JValue.jnum 20), ("latest_hour".data, JValue.jnum 8)]
        [("last_sent_date".data, JValue.jbool true)] ⟨2026, 2, 22, 10, 0, 0⟩ (fun _ _ => 0) =
      .error ("parse arguments: ".data ++
        ("latest_hour (".data ++ intStr 8 ++
         ") must be greater than earliest_hour (".data ++ intStr 20 ++ ")".data)) :=
  run_invalid_window_error _ _ _ _ (by decide)

/-- C4: with a valid configuration and parsed state, when `lastSentDate`
equals `now`'s UTC calendar date, `run` skips and returns the state
unchanged, for every `scheduledFor` value and every random generator. -/
theorem run_already_sent_skips (arguments state : List (Str × JValue)) (now : DateTime)
    (g : Nat → Int → Int) (a : GoblinArgs) (st : GoblinState)
    (hA : parseArgs arguments = .ok a)
    (hS : parseState state = .ok st)
    (hSent : st.lastSentDate = formatDate now) :
    run arguments state now g = .ok { data := [], state := saveState st, skip := true } :=
  run_already_eq arguments state now g a st hA hS hSent

theorem run_already_sent_skips_witness :
    run [] [("last_sent_date".data, JValue.jstr "2026-02-22".data),
            ("scheduled_for".data, JValue.jstr "nonsense".data)]
        ⟨2026, 2, 22, 10, 0, 0⟩ (fun _ _ => 3) =
      .ok { data := [], state := saveState ⟨"2026-02-22".data, "nonsense".data⟩, skip := true } :=
  run_already_sent_skips _ _ _ _ ⟨"friend".data, 8, 20⟩ ⟨"2026-02-22".data, "nonsense".data⟩
    (by decide) (by decide) (by decide)

/-- C5: with a valid configuration and parsed state, when the salutation was
not yet sent today and `scheduledFor` has today's date prefix: if it parses
as a UTC datetime still in the future, `run` skips with the state unchanged;
if it fails to parse, `run` returns an error. -/
theorem run_waiting_or_corrupt (arguments state : List (Str × JValue)) (now : DateTime)
    (g : Nat → Int → Int) (a : GoblinArgs) (st : GoblinState)
    (hA : parseArgs arguments = .ok a)
    (hS : parseState state = .ok st)
    (hSent : st.lastSentDate ≠ formatDate now)
    (hLen : 10 ≤ st.scheduledFor.length)
    (hPre : st.scheduledFor.take 10 = formatDate now) :
    (∀ dt, parseDateTime st.scheduledFor = some dt → now.before dt = true →
      run arguments state now g = .ok { data := [], state := saveState st, skip := true }) ∧
    (parseDateTime st.scheduledFor = none →
      ∃ e, run arguments state now g = .error e) := by
  have hNo : ¬(st.scheduledFor = [] ∨ st.scheduledFor.length < 10 ∨
      st.scheduledFor.take 10 ≠ formatDate now) := by
    push_neg
    refine ⟨?_, by omega, hPre⟩
    intro h
    rw [h] at hLen
    simp at hLen
  constructor
  · intro dt hP hB
    exact run_wait_eq arguments state now g a st dt hA hS hSent hNo hP hB
  · intro hP
    exact ⟨_, run_sched_err_eq arguments state now g a st hA hS hSent hNo hP⟩

theorem run_waiting_or_corrupt_witness :
    run [("name".data, JValue.jstr "Alice".data)]
        [("scheduled_for".data, JValue.jstr "2026-02-22T14:30".data)]
        ⟨2026, 2, 22, 9, 0, 0⟩ (fun _ _ => 0) =
      .ok { data := [], state := saveState ⟨[], "2026-02-22T14:30".data⟩, skip := true } :=
  (run_waiting_or_corrupt _ _ _ _ ⟨"Alice".data, 8, 20⟩ ⟨[], "2026-02-22T14:30".data⟩
    (by decide) (by decide) (by decide) (by decide) (by decide)).1
    ⟨2026, 2, 22, 14, 30, 0⟩ (by decide) (by decide)

/-- C6 (counterexample): the claim fails as stated: in the already-sent-today
branch `run` succeeds and returns the state unchanged, keeping a
`scheduledFor` whose date prefix is not today's. -/
theorem run_stale_schedule_kept_counterexample :
    run [] [("last_sent_date".data, JValue.jstr "2026-02-22".data),
            ("scheduled_for".data, JValue.jstr "2020-01-01T00:00".data)]
        ⟨2026, 2, 22, 10, 0, 0⟩ (fun _ _ => 0) =
      .ok { data := [],
            state := [("last_sent_date".data, JValue.jstr "2026-02-22".data),
                      ("scheduled_for".data, JValue.jstr "2020-01-01T00:00".data)],
            skip := true } ∧
    ("2020-01-01T00:00".data : Str).take 10 ≠ formatDate ⟨2026, 2, 22, 10, 0, 0⟩ := by
  decide

/-- C6 (amended): for every successful invocation whose parsed state was not
already marked sent today, the returned state's `scheduledFor` is either
absent or carries today's date prefix; a stale prefix is never honored in
that case (when `lastSentDate` equals today the state, including any stale
`scheduledFor`, is returned unchanged instead). -/
theorem run_schedule_prefix_invariant (arguments state : List (Str × JValue)) (now : DateTime)
    (g : Nat → Int → Int) (st : GoblinState) (out : Output)
    (hS : parseState state = .ok st)
    (hSent : st.lastSentDate ≠ formatDate now)
    (hValid : ValidDateTime now)
    (hRun : run arguments state now g = .ok out) :
    lookupKV "scheduled_for".data out.state = none ∨
    ∃ sf, lookupKV "scheduled_for".data out.state = some (.jstr sf) ∧
      sf.take 10 = formatDate now := by
  cases hpa : parseArgs arguments with
  | error e =>
    rw [run_args_err_eq arguments state now g (parseArgs_error_window arguments e hpa)] at hRun
    cases hRun
  | ok a =>
    by_cases h2 : st.scheduledFor = [] ∨ st.scheduledFor.length < 10 ∨
        st.scheduledFor.take 10 ≠ formatDate now
    · rw [run_pick_eq arguments state now g a st hpa hS hSent h2] at hRun
      cases hRun
      right
      refine ⟨_, lookupKV_saveState_scheduledFor _ (by simp), ?_⟩
      show (formatDate now ++ "T".data ++ _ ++ ":".data ++ _).take 10 = formatDate now
      simp only [List.append_assoc]
      exact take_len_append _ _ (formatDate_length now hValid)
    · cases hp : parseDateTime st.scheduledFor with
      | none =>
        rw [run_sched_err_eq arguments state now g a st hpa hS hSent h2 hp] at hRun
        cases hRun
      | some dt =>
        push_neg at h2
        obtain ⟨hne, hlen, hpre⟩ := h2
        by_cases hb : now.before dt = true
        · rw [run_wait_eq arguments state now g a st dt hpa hS hSent
            (no_repick_today st.scheduledFor (formatDate now) (by omega) hpre) hp hb] at hRun
          cases hRun
          right
          exact ⟨st.scheduledFor, lookupKV_saveState_scheduledFor st hne, hpre⟩
        · have hb' : now.before dt = false := by
            cases hbv : now.before dt
            · rfl
            · exact absurd hbv hb
          rw [run_fire_eq arguments state now g a st dt hpa hS hSent
            (no_repick_today st.scheduledFor (formatDate now) (by omega) hpre) hp hb'] at hRun
          cases hRun
          left
          unfold lookupKV
          rw [if_neg (by decide)]
          rfl

theorem run_schedule_prefix_invariant_witness :
    lookupKV "scheduled_for".data [("scheduled_for".data, JValue.jstr "2026-02-22T08:00".data)] = none ∨
    ∃ sf, lookupKV "scheduled_for".data
        [("scheduled_for".data, JValue.jstr "2026-02-22T08:00".data)] = some (.jstr sf) ∧
      sf.take 10 = formatDate ⟨2026, 2, 22, 7, 0, 0⟩ :=
  run_schedule_prefix_invariant [] [] ⟨2026, 2, 22, 7, 0, 0⟩ (fun _ _ => 0) ⟨[], []⟩
    ⟨[], [("scheduled_for".data, JValue.jstr "2026-02-22T08:00".data)], true⟩
    (by decide) (by decide) (by decide) (by decide)

/-- C7: whenever `run` fires, re-invoking it with the returned state, the
same configuration and the same `now` skips via the already-sent-today
branch, returning that state unchanged — at most one fire per UTC day. -/
theorem run_fire_then_skip (arguments state : List (Str × JValue)) (now : DateTime)
    (g : Nat → Int → Int) (a : GoblinArgs) (st : GoblinState) (dt : DateTime)
    (hA : parseArgs arguments = .ok a)
    (hS : parseState state = .ok st)
    (hSent : st.lastSentDate ≠ formatDate now)
    (hLen : 10 ≤ st.scheduledFor.length)
    (hPre : st.scheduledFor.take 10 = formatDate now)
    (hParse : parseDateTime st.scheduledFor = some dt)
    (hReached : now.before dt = false) :
    ∃ out, run arguments state now g = .ok out ∧ out.skip = false ∧
      ∀ g', run arguments out.state now g' =
        .ok { data := [], state := out.state, skip := true } := by
  refine ⟨_, run_fire_eq arguments state now g a st dt hA hS hSent
    (no_repick_today st.scheduledFor (formatDate now) hLen hPre) hParse hReached,
    rfl, fun g' => ?_⟩
  show run arguments [("last_sent_date".data, JValue.jstr (formatDate now))] now g' = _
  rw [run_already_eq arguments _ now g' a ⟨formatDate now, []⟩ hA (parseState_lastOnly _) rfl,
    saveState_lastOnly _ (formatDate_ne_nil now)]

theorem run_fire_then_skip_witness :
    ∃ out, run [] [("scheduled_for".data, JValue.jstr "2026-02-22T14:00".data)]
        ⟨2026, 2, 22, 14, 30, 0⟩ (fun _ _ => 0) = .ok out ∧ out.skip = false ∧
      ∀ g', run [] out.state ⟨2026, 2, 22, 14, 30, 0⟩ g' =
        .ok { data := [], state := out.state, skip := true } :=
  run_fire_then_skip [] _ _ _ ⟨"friend".data, 8, 20⟩ ⟨[], "2026-02-22T14:00".data⟩
    ⟨2026, 2, 22, 14, 0, 0⟩ (by decide) (by decide) (by decide) (by decide)
    (by decide) (by decide) (by decide)

/-- C9: `parseArgs` accepts hour bounds outside [0,23] (23 and 30 here,
checked only for `latest > earliest`); with the generator returning the
maximum offset the schedule-pick branch composes a `scheduledFor` whose hour
field is 29, which no longer parses, so the next same-day invocation with
that state fails with a schedule-parse error instead of ever firing. -/
theorem run_out_of_range_hours :
    parseArgs [("earliest_hour".data, JValue.jnum 23), ("latest_hour".data, JValue.jnum 30)] =
      .ok ⟨"friend".data, 23, 30⟩ ∧
    run [("earliest_hour".data, JValue.jnum 23), ("latest_hour".data, JValue.jnum 30)] []
        ⟨2026, 2, 22, 8, 0, 0⟩ (fun _ n => n - 1) =
      .ok { data := [],
            state := [("scheduled_for".data, JValue.jstr "2026-02-22T29:59".data)],
            skip := true } ∧
    parseDateTime "2026-02-22T29:59".data = none ∧
    run [("earliest_hour".data, JValue.jnum 23), ("latest_hour".data, JValue.jnum 30)]
        [("scheduled_for".data, JValue.jstr "2026-02-22T29:59".data)]
        ⟨2026, 2, 22, 8, 0, 0⟩ (fun _ n => n - 1) =
      .error ("parse scheduled_for ".data ++ "2026-02-22T29:59".data) := by
  decide

/-- C10: a `name` argument present but equal to the empty string falls back
to the default "friend", and a fire decision under such a configuration
carries payload name "friend". -/
theorem run_empty_name_defaults (arguments state : List (Str × JValue)) (now : DateTime)
    (g : Nat → Int → Int) (a : GoblinArgs) (st : GoblinState) (dt : DateTime)
    (hName : lookupKV "name".data arguments = some (.jstr []))
    (hA : parseArgs arguments = .ok a)
    (hS : parseState state = .ok st)
    (hSent : st.lastSentDate ≠ formatDate now)
    (hLen : 10 ≤ st.scheduledFor.length)
    (hPre : st.scheduledFor.take 10 = formatDate now)
    (hParse : parseDateTime st.scheduledFor = some dt)
    (hReached : now.before dt = false) :
    a.name = "friend".data ∧
    run arguments state now g =
      .ok { data := [("name".data, JValue.jstr "friend".data),
                     ("time_of_day".data, JValue.jstr (timeOfDay now.hour))],
            state := [("last_sent_date".data, JValue.jstr (formatDate now))],
            skip := false } := by
  have hn : a.name = "friend".data := by
    rw [parseArgs_ok_eq arguments a hA]
    exact applyDefaults_name_empty arguments hName
  refine ⟨hn, ?_⟩
  rw [run_fire_eq arguments state now g a st dt hA hS hSent
    (no_repick_today st.scheduledFor (formatDate now) hLen hPre) hParse hReached, hn]

theorem run_empty_name_defaults_witness :
    (⟨"friend".data, 8, 20⟩ : GoblinArgs).name = "friend".data ∧
    run [("name".data, JValue.jstr [])]
        [("scheduled_for".data, JValue.jstr "2026-02-22T14:00".data)]
        ⟨2026, 2, 22, 15, 0, 0⟩ (fun _ _ => 0) =
      .ok { data := [("name".data, JValue.jstr "friend".data),
                     ("time_of_day".data, JValue.jstr (timeOfDay 15))],
            state := [("last_sent_date".data, JValue.jstr (formatDate ⟨2026, 2, 22, 15, 0, 0⟩))],
            skip := false } :=
  run_empty_name_defaults _ _ _ _ ⟨"friend".data, 8, 20⟩ ⟨[], "2026-02-22T14:00".data⟩
    ⟨2026, 2, 22, 14, 0, 0⟩ (by decide) (by decide) (by decide) (by decide)
    (by decide) (by decide) (by decide) (by decide)

/-- C8: `run` returns an error exactly when the defaulted window is violated,
the state does not unmarshal, or a today-prefixed `scheduledFor` fails to
parse; and the three normal situations (already sent, no schedule for today,
schedule not reached) always produce an ok skip decision. -/
theorem run_error_iff (arguments state : List (Str × JValue)) (now : DateTime)
    (g : Nat → Int → Int) :
    ((∃ e, run arguments state now g = .error e) ↔
      ((applyDefaults arguments).latestHour ≤ (applyDefaults arguments).earliestHour ∨
       (∃ e, parseState state = .error e) ∨
       (∃ st, parseState state = .ok st ∧ st.lastSentDate ≠ formatDate now ∧
         10 ≤ st.scheduledFor.length ∧ st.scheduledFor.take 10 = formatDate now ∧
         parseDateTime st.scheduledFor = none))) ∧
    (∀ a st, parseArgs arguments = .ok a → parseState state = .ok st →
      (st.lastSentDate = formatDate now ∨
       (st.scheduledFor = [] ∨ st.scheduledFor.length < 10 ∨
         st.scheduledFor.take 10 ≠ formatDate now) ∨
       (∃ dt, parseDateTime st.scheduledFor = some dt ∧ now.before dt = true)) →
      ∃ out, run arguments state now g = .ok out ∧ out.skip = true) := by
  by_cases hw : (applyDefaults arguments).latestHour ≤ (applyDefaults arguments).earliestHour
  · refine ⟨⟨fun _ => Or.inl hw, fun _ => ⟨_, run_args_err_eq arguments state now g hw⟩⟩, ?_⟩
    intro a st hA _ _
    unfold parseArgs at hA
    rw [if_pos hw] at hA
    cases hA
  · have hA : parseArgs arguments = .ok (applyDefaults arguments) := by
      unfold parseArgs
      rw [if_neg hw]
    cases hps : parseState state with
    | error e =>
      refine ⟨⟨fun _ => Or.inr (Or.inl ⟨e, rfl⟩),
        fun _ => ⟨_, run_state_err_eq arguments state now g _ e hA hps⟩⟩, ?_⟩
      intro a st _ hS2 _
      cases hS2
    | ok st =>
      by_cases h1 : st.lastSentDate = formatDate now
      · have hrun := run_already_eq arguments state now g _ st hA hps h1
        refine ⟨⟨?_, ?_⟩, ?_⟩
        · rintro ⟨e, he⟩
          rw [hrun] at he
          cases he
        · rintro (h | ⟨e, he⟩ | ⟨st', hst', hne, -⟩)
          · exact absurd h hw
          · cases he
          · cases hst'
            exact absurd h1 hne
        · intro a st' _ hS2 _
          cases hS2
          exact ⟨_, hrun, rfl⟩
      · by_cases h2 : st.scheduledFor = [] ∨ st.scheduledFor.length < 10 ∨
            st.scheduledFor.take 10 ≠ formatDate now
        · have hrun := run_pick_eq arguments state now g _ st hA hps h1 h2
          refine ⟨⟨?_, ?_⟩, ?_⟩
          · rintro ⟨e, he⟩
            rw [hrun] at he
            cases he
          · rintro (h | ⟨e, he⟩ | ⟨st', hst', hne, hlen, hpre, -⟩)
            · exact absurd h hw
            · cases he
            · cases hst'
              rcases h2 with h | h | h
              · rw [h] at hlen
                simp at hlen
              · omega
              · exact absurd hpre h
          · intro a st' _ hS2 _
            cases hS2
            exact ⟨_, hrun, rfl⟩
        · cases hp : parseDateTime st.scheduledFor with
          | none =>
            have hrun := run_sched_err_eq arguments state now g _ st hA hps h1 h2 hp
            push_neg at h2
            refine ⟨⟨?_, fun _ => ⟨_, hrun⟩⟩, ?_⟩
            · intro _
              exact Or.inr (Or.inr ⟨st, rfl, h1, by omega, h2.2.2, hp⟩)
            · intro a st' _ hS2 hc
              cases hS2
              rcases hc with h | h | ⟨dt, hdt, -⟩
              · exact absurd h h1
              · rcases h with h | h | h
                · exact absurd h h2.1
                · omega
                · exact absurd h2.2.2 h
              · rw [hp] at hdt
                cases hdt
          | some dt =>
            by_cases hb : now.before dt = true
            · have hrun := run_wait_eq arguments state now g _ st dt hA hps h1 h2 hp hb
              refine ⟨⟨?_, ?_⟩, ?_⟩
              · rintro ⟨e, he⟩
                rw [hrun] at he
                cases he
              · rintro (h | ⟨e, he⟩ | ⟨st', hst', -, -, -, hpn⟩)
                · exact absurd h hw
                · cases he
                · cases hst'
                  rw [hp] at hpn
                  cases hpn
              · intro a st' _ hS2 _
                cases hS2
                exact ⟨_, hrun, rfl⟩
            · have hb' : now.before dt = false := by
                cases hbv : now.before dt
                · rfl
                · exact absurd hbv hb
              have hrun := run_fire_eq arguments state now g _ st dt hA hps h1 h2 hp hb'
              refine ⟨⟨?_, ?_⟩, ?_⟩
              · rintro ⟨e, he⟩
                rw [hrun] at he
                cases he
              · rintro (h | ⟨e, he⟩ | ⟨st', hst', -, -, -, hpn⟩)
                · exact absurd h hw
                · cases he
                · cases hst'
                  rw [hp] at hpn
                  cases hpn
              · intro a st' _ hS2 hc
                cases hS2
                rcases hc with h | h | ⟨dt', hdt', hbt⟩
                · exact absurd h h1
                · exact absurd h h2
                · rw [hp] at hdt'
                  cases hdt'
                  rw [hb'] at hbt
                  cases hbt

theorem run_error_iff_witness :
    ∃ e, run [("latest_hour".data, JValue.jnum 5)] [] ⟨2026, 2, 22, 10, 0, 0⟩
      (fun _ _ => 0) = .error e :=
  (run_error_iff [("latest_hour".data, JValue.jnum 5)] [] ⟨2026, 2, 22, 10, 0, 0⟩
    (fun _ _ => 0)).1.mpr (Or.inl (by decide))
